import Mathlib

/-!
Verification of `ariadne-codegen`'s client-generator core against its
specification.  The development shallowly embeds the two source files

  * `src/ariadne_codegen/client_generators/dependencies/base_client.py`
    (runtime base client: variable normalization, file extraction,
    multipart/JSON dispatch, response classification), and
  * `src/ariadne_codegen/client_generators/client.py`
    (AST construction of the generated client class),

as executable Lean definitions, and proves the specification's testable
properties about them.  Python runtime values handled by the base client
are modelled by the closed `Value` universe below; Python `dict`s are
modelled as association lists in insertion order (Python 3.7+ dicts
preserve insertion order, which the multipart index assignment relies on).
-/

namespace AriadneCodegen

/-- The universe of runtime values flowing through `BaseClient`'s variable
normalization: JSON scalars, lists, string-keyed dicts, the `UNSET`
sentinel, pydantic `BaseModel` instances (field name → value, a field
holding `vUNSET` being an unset field), and `io.IOBase` file handles,
identified by a numeric identity and carrying an optional `mode`
attribute (`none` models a handle with no `mode` attribute at all). -/
inductive Value where
  | vNull : Value
  | vBool : Bool → Value
  | vInt : Int → Value
  | vStr : String → Value
  | vUNSET : Value
  | vList : List Value → Value
  | vDict : List (String × Value) → Value
  | vModel : List (String × Value) → Value
  | vFile : Nat → Option String → Value
deriving Repr

namespace BaseClient

/-- The identity test `value is UNSET` against the singleton sentinel:
true exactly for the `vUNSET` constructor. -/
def is_unset : Value → Bool
  | .vUNSET => true
  | _ => false

/-- Python truthiness of a runtime value (`if errors:`, `if variables:`):
`None`, `False`, `0`, `""`, `[]` and `{}` are falsy, every other value is
truthy (arbitrary objects such as models and file handles are truthy). -/
def truthy : Value → Bool
  | .vNull => false
  | .vBool b => b
  | .vInt n => n != 0
  | .vStr s => s ≠ ""
  | .vList xs => !xs.isEmpty
  | .vDict kvs => !kvs.isEmpty
  | .vModel _ => true
  | .vFile _ _ => true
  | .vUNSET => true

mutual

/-- Models pydantic's `BaseModel.dict(by_alias=True, exclude_unset=True)`
as invoked by `BaseClient._convert_value`: drop fields left at their
`UNSET` state, convert every remaining value to its plain serializable
form (nested models become dicts, containers are converted element-wise).
Field names in `vModel` are stored already aliased. -/
def pydantic_dict : List (String × Value) → List (String × Value)
  | [] => []
  | (k, v) :: rest =>
      if is_unset v then pydantic_dict rest
      else (k, pydantic_plain v) :: pydantic_dict rest

/-- Plain-serializable form of a single value inside `pydantic_dict`. -/
def pydantic_plain : Value → Value
  | .vModel fields => .vDict (pydantic_dict fields)
  | .vList xs => .vList (pydantic_plain_list xs)
  | .vDict kvs => .vDict (pydantic_dict kvs)
  | v => v

/-- Element-wise `pydantic_plain` over a list value. -/
def pydantic_plain_list : List Value → List Value
  | [] => []
  | v :: vs => pydantic_plain v :: pydantic_plain_list vs

end

mutual

/-- Embeds `BaseClient._convert_value`: a pydantic model becomes
`value.dict(by_alias=True, exclude_unset=True)`, a list is converted
element-wise, any other value is returned unchanged (in particular a
plain dict value is not recursed into by this function). -/
def _convert_value : Value → Value
  | .vModel fields => .vDict (pydantic_dict fields)
  | .vList xs => .vList (_convert_value_list xs)
  | v => v

/-- The list comprehension `[self._convert_value(item) for item in value]`. -/
def _convert_value_list : List Value → List Value
  | [] => []
  | v :: vs => _convert_value v :: _convert_value_list vs

end

/-- Embeds `BaseClient._convert_dict_to_json_serializable`: the dict
comprehension keeping every key whose value `is not UNSET`, with the
value passed through `_convert_value`. -/
def _convert_dict_to_json_serializable
    (dict_ : List (String × Value)) : List (String × Value) :=
  (dict_.filter (fun kv => !is_unset kv.2)).map
    (fun kv => (kv.1, _convert_value kv.2))

/-- The file-reference map `files_to_paths_map`: a Python dict keyed by
file-handle identity, in insertion order, mapping each handle to the
list of dotted paths at which it occurs. -/
abbrev FilesToPathsMap := List (Nat × List String)

/-- Recording a file occurrence in `files_to_paths_map`: if the handle is
already a key, append the path to its list (keeping the key's position);
otherwise insert the new key at the end (Python dict insertion order). -/
def record_file (file_ : Nat) (path : String) :
    FilesToPathsMap → FilesToPathsMap
  | [] => [(file_, [path])]
  | (f, paths) :: rest =>
      if f = file_ then (f, paths ++ [path]) :: rest
      else (f, paths) :: record_file file_ path rest

/-- The binary-handle test on line 125 of `base_client.py`:
`isinstance(obj, io.IOBase) and "b" in getattr(obj, "mode", "b")` —
a handle with no `mode` attribute defaults to `"b"` and therefore
counts as binary.  Since the needle is the single character `b`,
substring containment is membership of `'b'` among the mode's
characters. -/
def is_binary_file_mode : Option String → Bool
  | none => true
  | some m => m.data.contains 'b'

mutual

/-- The inner function `separate_files` of
`BaseClient._get_files_from_variables`: depth-first walk with a dotted
path accumulator; lists recurse appending `.<index>`, dicts recurse
appending `.<key>`, a binary-mode file handle is recorded in
`files_to_paths_map` and replaced by `None`, every other value (including
a text-mode file handle) is returned unchanged.  The Python closure's
mutation of `files_to_paths_map` is modelled by explicit state passing. -/
def separate_files (path : String) (obj : Value)
    (fm : FilesToPathsMap) : Value × FilesToPathsMap :=
  match obj with
  | .vList xs =>
      let r := separate_files_list path 0 xs fm
      (.vList r.1, r.2)
  | .vDict kvs =>
      let r := separate_files_dict path kvs fm
      (.vDict r.1, r.2)
  | .vFile id mode =>
      if is_binary_file_mode mode then (.vNull, record_file id path fm)
      else (.vFile id mode, fm)
  | v => (v, fm)

/-- The `for index, value in enumerate(obj)` loop of `separate_files`. -/
def separate_files_list (path : String) (index : Nat) (xs : List Value)
    (fm : FilesToPathsMap) : List Value × FilesToPathsMap :=
  match xs with
  | [] => ([], fm)
  | v :: vs =>
      let r := separate_files (path ++ "." ++ toString index) v fm
      let rs := separate_files_list path (index + 1) vs r.2
      (r.1 :: rs.1, rs.2)

/-- The `for key, value in obj.items()` loop of `separate_files`. -/
def separate_files_dict (path : String) (kvs : List (String × Value))
    (fm : FilesToPathsMap) : List (String × Value) × FilesToPathsMap :=
  match kvs with
  | [] => ([], fm)
  | (k, v) :: rest =>
      let r := separate_files (path ++ "." ++ k) v fm
      let rs := separate_files_dict path rest r.2
      ((k, r.1) :: rs.1, rs.2)

end

/-- Embeds `BaseClient._get_files_from_variables`: run `separate_files` from the
root path `"variables"` over the (already serializable) variables dict,
returning the nulled variables and the file-reference map. -/
def _get_files_from_variables (variables_ : List (String × Value)) :
    (List (String × Value)) × FilesToPathsMap :=
  match separate_files "variables" (.vDict variables_) [] with
  | (.vDict nulled, fm) => (nulled, fm)
  | (_, fm) => ([], fm)

/-- Embeds `BaseClient._process_variables`: `if not variables: return {}, {}`
(both a missing and an empty variables mapping short-circuit), otherwise
convert to JSON-serializable form and extract files. -/
def _process_variables (variables_ : Option (List (String × Value))) :
    (List (String × Value)) × FilesToPathsMap :=
  match variables_ with
  | none => ([], [])
  | some d =>
      if d.isEmpty then ([], [])
      else _get_files_from_variables (_convert_dict_to_json_serializable d)

/-- The POST body payload `{"query": query, "variables": processed_variables}`
built by `execute`.  JSON text encoding (`json.dumps`) is kept structural. -/
structure Payload where
  query : String
  variables_ : List (String × Value)
deriving Repr

/-- The observable HTTP request issued by one `execute` call: either the
plain-JSON POST (`_execute_json`, with its explicit content-type header)
or the multipart POST (`_execute_multipart`, with the `operations`
payload, the index→paths `map` field, and the index→handle file parts). -/
inductive Request where
  | jsonRequest (payload : Payload) (headers : List (String × String))
  | multipartRequest (operations : Payload)
      (map : List (String × List String)) (files : List (String × Nat))
deriving Repr

/-- The `files_map` dict of `BaseClient._execute_multipart`: enumerate the
keys of `files_to_paths_map` in insertion order, mapping each index (as a
decimal string) to that handle's list of dotted paths. -/
def files_map (fm : FilesToPathsMap) : List (String × List String) :=
  fm.enum.map (fun p => (toString p.1, p.2.2))

/-- The `files` dict of `BaseClient._execute_multipart`: index string to
the file handle itself, same enumeration order as `files_map`. -/
def files (fm : FilesToPathsMap) : List (String × Nat) :=
  fm.enum.map (fun p => (toString p.1, p.2.1))

/-- Embeds `BaseClient._execute_multipart`: POST multipart form fields
`operations`, `map` and the indexed file parts. -/
def _execute_multipart (payload : Payload) (fm : FilesToPathsMap) :
    Request :=
  .multipartRequest payload (files_map fm) (files fm)

/-- Embeds `BaseClient._execute_json`: POST the JSON payload with an explicit
JSON content-type header. -/
def _execute_json (payload : Payload) : Request :=
  .jsonRequest payload [("Content-Type", "application/json")]

/-- Embeds `BaseClient.execute`: normalize the variables; if the file-reference
map is non-empty (`if files_to_paths_map:`) issue the multipart request,
otherwise the plain JSON request. -/
def execute (query : String) (variables_ : Option (List (String × Value))) :
    Request :=
  let pr := _process_variables variables_
  let payload : Payload := ⟨query, pr.1⟩
  if !pr.2.isEmpty then _execute_multipart payload pr.2
  else _execute_json payload

/-- An `httpx.Response` as far as `get_data` inspects it: the HTTP status
code and the result of `response.json()` — `none` models a body that is
not parseable as JSON (`json()` raising `ValueError`). -/
structure Response where
  status_code : Nat
  body : Option Value
deriving Repr

/-- Embeds `httpx.Response.is_success`: the status code is in the 2xx range. -/
def Response.is_success (r : Response) : Bool :=
  200 ≤ r.status_code && r.status_code ≤ 299

/-- Modelled from the spec: `GraphQLError` (from the missing
`exceptions.py`) carries a message, an optional path and optional
locations, produced by parsing one entry of the server's `errors` array. -/
structure GraphQLError where
  message : String
  path : Option Value
  locations : Option Value
deriving Repr

/-- Modelled from the spec: parsing one entry of the `errors` array into a
`GraphQLError` (`GraphQLClientGraphQLMultiError.from_errors_dicts` lives
in `exceptions.py`, which is not part of the analysed sources): the
`message` key supplies the message, `path` and `locations` are kept when
present. -/
def graphql_error_from_dict (j : Value) : GraphQLError :=
  match j with
  | .vDict kvs =>
      { message := match kvs.lookup "message" with
          | some (.vStr s) => s
          | _ => ""
        path := kvs.lookup "path"
        locations := kvs.lookup "locations" }
  | _ => { message := "", path := none, locations := none }

/-- Modelled from the spec: `from_errors_dicts` — each entry of the
server's `errors` array becomes a `GraphQLError`. -/
def from_errors_dicts (errors_dicts : List Value) : List GraphQLError :=
  errors_dicts.map graphql_error_from_dict

/-- The `errors` value as an iterable of error dicts: the spec only
constrains the case of an `errors` array. -/
def errors_entries : Value → List Value
  | .vList xs => xs
  | _ => []

/-- Outcome of `BaseClient.get_data`: the returned `data` mapping, or one
of the three raised failures of the error taxonomy, each carrying what
the corresponding exception carries. -/
inductive GetDataResult where
  | ok (data : Value)
  | httpError (status_code : Nat) (response : Response)
  | invalidResponse (response : Response)
  | graphQLMultiError (errors : List GraphQLError) (data : Value)
deriving Repr

/-- Embeds `BaseClient.get_data`: non-success status raises `HttpError` before
any body inspection; an unparseable body raises `InvalidResponseError`;
so does a parsed body that is not a dict or lacks a `"data"` key; a
truthy `errors` value raises `GraphQLMultiError` built from the errors
array and carrying the (possibly partial) `data`; otherwise the `data`
value is returned. -/
def get_data (response : Response) : GetDataResult :=
  if !response.is_success then
    .httpError response.status_code response
  else
    match response.body with
    | none => .invalidResponse response
    | some response_json =>
        match response_json with
        | .vDict kvs =>
            match kvs.lookup "data" with
            | none => .invalidResponse response
            | some data =>
                match kvs.lookup "errors" with
                | some errors =>
                    if truthy errors then
                      .graphQLMultiError
                        (from_errors_dicts (errors_entries errors)) data
                    else .ok data
                | none => .ok data
        | _ => .invalidResponse response

/-- The state of a `BaseClient` instance after `__init__`: target URL,
default headers, and the held HTTP client handle (handles are identified
by numbers; `httpx.Client` instances are compared by identity). -/
structure State where
  url : String
  headers : Option (List (String × String))
  http_client : Nat
deriving Repr

/-- Embeds `BaseClient.__init__`: `self.http_client = http_client if http_client
else httpx.Client(headers=headers)` — the injected handle when one is
supplied, otherwise a freshly created handle (`fresh_client` stands for
the identity of the `httpx.Client` the constructor would create). -/
def init (url : String) (headers : Option (List (String × String)))
    (http_client : Option Nat) (fresh_client : Nat) : State :=
  { url := url, headers := headers
    http_client := http_client.getD fresh_client }

/-- Embeds `BaseClient.__enter__` returns the client itself. -/
def enter (self : State) : State := self

/-- Embeds `BaseClient.__exit__(exc_type, exc_val, exc_tb)`: ignores the
exception information and calls `self.http_client.close()`; the result is
the identity of the handle that gets closed. -/
def exit_closes (self : State) (exc_info : Option String) : Nat :=
  match exc_info with
  | _ => self.http_client

end BaseClient

/-!
Embedding of `client.py`.  The tree-builder primitives of `codegen.py`
(`generate_assign`, `generate_call`, …) are not among the analysed
sources; per the specification they are plain constructors for
syntax-tree nodes, so they are modelled by the constructors of the
`Py*` types below.
-/

/-- Python expression nodes, as built by the tree-builder primitives. -/
inductive PyExpr where
  | name (id : String)
  | constant (value : String)
  | attribute (value : PyExpr) (attr : String)
  | call (func : PyExpr) (args : List PyExpr)
      (keywords : List (String × PyExpr))
  | dictExpr (entries : List (PyExpr × PyExpr))
  | subscript (value : PyExpr) (slice : PyExpr)
  | tupleExpr (elts : List PyExpr)
  | listExpr (elts : List PyExpr)
  | awaitExpr (value : PyExpr)
deriving Repr

/-- Python statement nodes appearing in generated method bodies. -/
inductive PyStmt where
  | assign (targets : List String) (value : PyExpr) (lineno : Nat)
  | annAssign (target : String) ( annotation : PyExpr) (value : PyExpr)
      (lineno : Nat)
  | ret (value : PyExpr)
deriving Repr

/-- One formal parameter of a generated function (`ast.arg`). -/
structure PyArg where
  arg : String
  annotation : Option PyExpr
deriving Repr

/-- A generated (sync or async) function definition; `is_async`
distinguishes `ast.FunctionDef` from `ast.AsyncFunctionDef`. -/
structure PyFunctionDef where
  fname : String
  args : List PyArg
  returns : PyExpr
  body : List PyStmt
  is_async : Bool
  lineno : Nat
deriving Repr

/-- An `ast.ImportFrom` node: module (optional, as in the Python AST),
imported names, relative-import level. -/
structure PyImportFrom where
  moduleName : Option String
  names : List String
  level : Nat
deriving Repr

/-- An element of a generated class body: a method, or the `ast.Pass`
inserted when the class body would otherwise be empty. -/
inductive PyClassBodyItem where
  | methodItem (m : PyFunctionDef)
  | passItem
deriving Repr

/-- An `ast.ClassDef` node as built by `generate_class_def`. -/
structure PyClassDef where
  cname : String
  base_names : List String
  body : List PyClassBodyItem
  lineno : Nat
deriving Repr

/-- A top-level statement of the generated module. -/
inductive PyModuleItem where
  | importItem (i : PyImportFrom)
  | funcItem (f : PyFunctionDef)
  | classItem (c : PyClassDef)
deriving Repr

/-- An `ast.Module` node: the ordered list of top-level statements. -/
structure PyModule where
  body : List PyModuleItem
deriving Repr

/-- Modelled from the spec: a plugin-hook collection
(`PluginManager`, not among the analysed sources) exposes one pure
`Node -> Node` transformation per hook point. -/
structure PluginManager where
  generate_gql_function : PyFunctionDef → PyFunctionDef
  generate_client_class : PyClassDef → PyClassDef
  generate_client_method : PyFunctionDef → PyFunctionDef
  generate_client_module : PyModule → PyModule
  generate_client_import : PyImportFrom → PyImportFrom

/-- The plugin-hook collection in which every hook is the identity. -/
def identityPluginManager : PluginManager :=
  { generate_gql_function := fun f => f
    generate_client_class := fun c => c
    generate_client_method := fun m => m
    generate_client_module := fun m => m
    generate_client_import := fun i => i }

/-- How the Argument Serializer classifies a variable's bound GraphQL
type: a declared input type, an enum, a custom scalar, or a built-in
scalar (classification is performed upstream against the schema). -/
inductive VarKind where
  | inputType
  | enumType
  | customScalar
  | builtin
deriving Repr, DecidableEq

/-- One entry of an operation definition's ordered variable list:
name, bound type name, nullability/list shape, classification, and
whether a default value is present. -/
structure VariableDefinition where
  varName : String
  typeName : String
  isList : Bool
  nullable : Bool
  kind : VarKind
  hasDefault : Bool
deriving Repr

namespace ArgumentsGenerator

/-- Modelled from the spec: the target-type annotation produced by the
Argument Serializer's GraphQL-type-to-target-type mapping — lists become
sequence types, nullable types become optional types, default-less
required types stay bare. -/
def annotation_of (vd : VariableDefinition) : PyExpr :=
  let base : PyExpr :=
    if vd.isList then .subscript (.name "List") (.name vd.typeName)
    else .name vd.typeName
  if vd.nullable then .subscript (.name "Optional") base
  else base

/-- Modelled from the spec: the mapping-literal value for one parameter —
a plain reference for built-in types, a serialization call where the
bound type requires custom (de)serialization (input types, enums, custom
scalars).  A variable with a default value still participates as a plain
reference. -/
def dict_value_of (vd : VariableDefinition) : PyExpr :=
  if vd.kind = .builtin then .name vd.varName
  else .call (.name "serialize") [.name vd.varName] []

/-- Modelled from the spec: `ArgumentsGenerator.generate`
(`arguments.py`, not among the analysed sources) — produce the parameter
list (the explicit receiver `self` followed by one typed parameter per
variable definition) and the mapping-literal expression from parameter
name to parameter value. -/
def generate (vds : List VariableDefinition) : List PyArg × PyExpr :=
  (⟨"self", none⟩ :: vds.map (fun vd => ⟨vd.varName, some (annotation_of vd)⟩),
   .dictExpr (vds.map (fun vd => (.constant vd.varName, dict_value_of vd))))

/-- Modelled from the spec: the Argument Serializer records, as a side
effect, which names of the given kind were referenced (accumulated
without duplicates across calls, for import generation). -/
def record_used (kind : VarKind) (vds : List VariableDefinition)
    (used : List String) : List String :=
  vds.foldl
    (fun acc vd =>
      if vd.kind = kind ∧ ¬ acc.contains vd.typeName then
        acc ++ [vd.typeName]
      else acc)
    used

end ArgumentsGenerator

/-- Modelled from the spec: the import/serialization metadata recorded
for a custom scalar (`ScalarData` of `scalars.py`, not among the analysed
sources); `generate_scalar_imports` returns its import statements. -/
structure ScalarData where
  imports_ : List PyImportFrom

namespace ClientGenerator

/-- Constants from `client_generators/constants.py` (not among the
analysed sources): names imported from `typing`. -/
def TYPING_MODULE : String := "typing"

/-- The mutable state of a `ClientGenerator` instance: configuration,
the accumulated Argument Serializer usage records, the accumulated list
of imports and the class definition under construction. -/
structure State where
  name : String
  enums_module_name : String
  input_types_module_name : String
  plugin_manager : Option PluginManager
  custom_scalars : List (String × ScalarData)
  used_inputs : List String
  used_enums : List String
  used_custom_scalars : List String
  imports : List PyImportFrom
  class_def : PyClassDef

/-- Embeds `ClientGenerator._add_import`: skip a missing node; pass the node
through the `generate_client_import` hook when a plugin manager is
registered; append it only when it imports at least one name and
references a module (a `None` or empty module string is falsy). -/
def _add_import (g : State) (import_ : Option PyImportFrom) : State :=
  match import_ with
  | none => g
  | some imp =>
      let imp := match g.plugin_manager with
        | some pm => pm.generate_client_import imp
        | none => imp
      if !imp.names.isEmpty ∧ imp.moduleName ≠ none ∧ imp.moduleName ≠ some ""
      then { g with imports := g.imports ++ [imp] }
      else g

/-- Embeds `ClientGenerator.__init__`: store the configuration, start with an
empty import list, add the `typing` import, then the optional base-client
and `UNSET`-sentinel imports, and create the (empty-bodied) class
definition with the given base class. -/
def init (name base_client enums_module_name input_types_module_name : String)
    (base_client_import unset_import : Option PyImportFrom)
    (custom_scalars : List (String × ScalarData))
    (plugin_manager : Option PluginManager) : State :=
  let g : State :=
    { name := name
      enums_module_name := enums_module_name
      input_types_module_name := input_types_module_name
      plugin_manager := plugin_manager
      custom_scalars := custom_scalars
      used_inputs := []
      used_enums := []
      used_custom_scalars := []
      imports := []
      class_def :=
        { cname := name, base_names := [base_client], body := [], lineno := 1 } }
  let g := _add_import g
    (some { moduleName := some TYPING_MODULE
            names := ["Optional", "List", "Any", "Union"], level := 0 })
  let g := _add_import g base_client_import
  _add_import g unset_import

/-- Embeds `ClientGenerator._generate_operation_str_assign`: assign the query
string, split one constant per source line with its newline restored,
wrapped in a call to the `gql` helper. -/
def _generate_operation_str_assign (operation_str : String) (lineno : Nat) :
    PyStmt :=
  .assign ["query"]
    (.call (.name "gql")
      [.listExpr ((operation_str.splitOn "\n").map
        (fun l => .constant (l ++ "\n")))]
      [])
    lineno

/-- Embeds `ClientGenerator._generate_variables_assign`: assign the variables
mapping with the explicit `dict[str, object]` annotation. -/
def _generate_variables_assign (arguments_dict : PyExpr) (lineno : Nat) :
    PyStmt :=
  .annAssign "variables"
    (.subscript (.name "dict") (.tupleExpr [.name "str", .name "object"]))
    arguments_dict lineno

/-- Embeds `ClientGenerator._generate_execute_call`:
`self.execute(query=query, variables=variables)`. -/
def _generate_execute_call : PyExpr :=
  .call (.attribute (.name "self") "execute") []
    [("query", .name "query"), ("variables", .name "variables")]

/-- Embeds `ClientGenerator._generate_async_response_assign`: assign `response`
from the awaited execute call. -/
def _generate_async_response_assign (lineno : Nat) : PyStmt :=
  .assign ["response"] (.awaitExpr _generate_execute_call) lineno

/-- Embeds `ClientGenerator._generate_response_assign`: assign `response` from
the (not awaited) execute call. -/
def _generate_response_assign (lineno : Nat) : PyStmt :=
  .assign ["response"] _generate_execute_call lineno

/-- Embeds `ClientGenerator._generate_data_retrieval`: assign `data` from
`self.get_data(response)`. -/
def _generate_data_retrieval : PyStmt :=
  .assign ["data"]
    (.call (.attribute (.name "self") "get_data") [.name "response"] [])
    1

/-- Embeds `ClientGenerator._generate_return_parsed_obj`:
`return <ReturnType>.parse_obj(data)`. -/
def _generate_return_parsed_obj (return_type : String) : PyStmt :=
  .ret (.call (.attribute (.name return_type) "parse_obj") [.name "data"] [])

/-- Embeds `ClientGenerator._generate_async_method`: async function definition
with the fixed five-statement body. -/
def _generate_async_method (name return_type : String)
    (arguments : List PyArg) (arguments_dict : PyExpr)
    (operation_str : String) : PyFunctionDef :=
  { fname := name
    args := arguments
    returns := .name return_type
    body :=
      [ _generate_operation_str_assign operation_str 1
      , _generate_variables_assign arguments_dict 2
      , _generate_async_response_assign 3
      , _generate_data_retrieval
      , _generate_return_parsed_obj return_type ]
    is_async := true
    lineno := 1 }

/-- Embeds `ClientGenerator._generate_method`: sync function definition with the
fixed five-statement body. -/
def _generate_method (name return_type : String)
    (arguments : List PyArg) (arguments_dict : PyExpr)
    (operation_str : String) : PyFunctionDef :=
  { fname := name
    args := arguments
    returns := .name return_type
    body :=
      [ _generate_operation_str_assign operation_str 1
      , _generate_variables_assign arguments_dict 2
      , _generate_response_assign 3
      , _generate_data_retrieval
      , _generate_return_parsed_obj return_type ]
    is_async := false
    lineno := 1 }

/-- The arguments of one `add_method` call: the operation definition's
variable list plus the method parameters. -/
structure MethodInput where
  variable_definitions : List VariableDefinition
  mname : String
  return_type : String
  return_type_module : String
  operation_str : String
  async_ : Bool
deriving Repr

/-- The method definition one `add_method` call appends: built by
`_generate_async_method` or `_generate_method`, its `lineno` set to
`len(self._class_def.body) + 1`, then passed through the
`generate_client_method` hook when a plugin manager is registered. -/
def make_method_def (g : State) (i : MethodInput) : PyFunctionDef :=
  let ag := ArgumentsGenerator.generate i.variable_definitions
  let method_def :=
    if i.async_ then
      _generate_async_method i.mname i.return_type ag.1 ag.2 i.operation_str
    else
      _generate_method i.mname i.return_type ag.1 ag.2 i.operation_str
  let method_def := { method_def with lineno := g.class_def.body.length + 1 }
  match g.plugin_manager with
  | some pm => pm.generate_client_method method_def
  | none => method_def

/-- Embeds `ClientGenerator.add_method`: run the Argument Serializer (recording
used input types, enums and custom scalars), append the (possibly
hook-transformed) method definition to the class body, and record an
additional import of the return type from its module. -/
def add_method (g : State) (i : MethodInput) : State :=
  let method_def := make_method_def g i
  let g :=
    { g with
      used_inputs :=
        ArgumentsGenerator.record_used .inputType i.variable_definitions
          g.used_inputs
      used_enums :=
        ArgumentsGenerator.record_used .enumType i.variable_definitions
          g.used_enums
      used_custom_scalars :=
        ArgumentsGenerator.record_used .customScalar i.variable_definitions
          g.used_custom_scalars
      class_def :=
        { g.class_def with
          body := g.class_def.body ++ [.methodItem method_def] } }
  _add_import g
    (some { moduleName := some i.return_type_module
            names := [i.return_type], level := 1 })

/-- A sequence of `add_method` calls, in call order. -/
def add_methods (g : State) : List MethodInput → State
  | [] => g
  | i :: is_ => add_methods (add_method g i) is_

/-- Embeds `ClientGenerator._generate_gql_func`: `def gql(q: str) -> str:
return q` — the identity wrapper kept as a real function. -/
def _generate_gql_func : PyFunctionDef :=
  { fname := "gql"
    args := [⟨"q", some (.name "str")⟩]
    returns := .name "str"
    body := [.ret (.name "q")]
    is_async := false
    lineno := 1 }

/-- One iteration of `generate`'s custom-scalar loop: look the scalar's
metadata up in `self.custom_scalars` and add each of its imports. -/
def _add_scalar_import_batch (acc : State) (custom_scalar_name : String) :
    State :=
  match acc.custom_scalars.lookup custom_scalar_name with
  | some scalar_data =>
      scalar_data.imports_.foldl
        (fun a import_ => _add_import a (some import_)) acc
  | none => acc

/-- The import-accumulation prefix of `generate`: add the input-type
import, the enum import, and the imports of every used custom scalar. -/
def _generate_imports_phase (g : State) : State :=
  let g := _add_import g
    (some { moduleName := some g.input_types_module_name
            names := g.used_inputs, level := 1 })
  let g := _add_import g
    (some { moduleName := some g.enums_module_name
            names := g.used_enums, level := 1 })
  g.used_custom_scalars.foldl _add_scalar_import_batch g

/-- Embeds `ClientGenerator.generate`: add the accumulated input-type, enum and
custom-scalar imports (empty ones are dropped by `_add_import`), build
the `gql` helper and the class definition with their line numbers, insert
`ast.Pass` into an empty class body, run the corresponding plugin hook at
each step, and assemble the module from imports, helper and class. -/
def generate (g : State) : PyModule :=
  let g := _generate_imports_phase g
  let gql_func := { _generate_gql_func with lineno := g.imports.length + 1 }
  let gql_func := match g.plugin_manager with
    | some pm => pm.generate_gql_function gql_func
    | none => gql_func
  let class_def := { g.class_def with lineno := g.imports.length + 3 }
  let class_def :=
    if class_def.body.isEmpty then
      { class_def with body := [.passItem] }
    else class_def
  let class_def := match g.plugin_manager with
    | some pm => pm.generate_client_class class_def
    | none => class_def
  let module : PyModule :=
    ⟨g.imports.map .importItem ++ [.funcItem gql_func, .classItem class_def]⟩
  match g.plugin_manager with
  | some pm => pm.generate_client_module module
  | none => module

end ClientGenerator

/-! ## Theorems about the runtime base client -/

namespace BaseClient

/-- An association list with pairwise-distinct keys binds each key to at
most one value. -/
theorem value_eq_of_mem_of_keys_nodup {l : List (String × Value)}
    (hnd : (l.map Prod.fst).Nodup) {k : String} {v₁ v₂ : Value}
    (h₁ : (k, v₁) ∈ l) (h₂ : (k, v₂) ∈ l) : v₁ = v₂ := by
  induction l with
  | nil => cases h₁
  | cons kv rest ih =>
      rcases List.nodup_cons.mp hnd with ⟨hknotin, hndrest⟩
      rcases List.mem_cons.mp h₁ with h₁ | h₁ <;>
        rcases List.mem_cons.mp h₂ with h₂ | h₂
      · rw [← h₂] at h₁; exact congrArg Prod.snd h₁
      · exact absurd (List.mem_map_of_mem Prod.fst h₂)
          (by rw [← h₁] at hknotin; exact hknotin)
      · exact absurd (List.mem_map_of_mem Prod.fst h₁)
          (by rw [← h₂] at hknotin; exact hknotin)
      · exact ih hndrest h₁ h₂

/-- C1 (counterexample): the claim "the scoped-teardown operation never
closes an injected handle" is false on the code — a `BaseClient`
constructed with the injected handle `5` closes exactly handle `5` when
leaving the scope on an error exit path (`__exit__` ignores the exception
information and unconditionally calls `self.http_client.close()`). -/
theorem exit_closes_injected_handle :
    exit_closes (init "http://example" none (some 5) 7) (some "boom") = 5 :=
  rfl

/-- C1 (amended): leaving the scope closes, on every exit path, exactly
the handle the base client holds — the injected handle when one was
supplied, the handle the client created itself otherwise.  An injected
handle is therefore also closed by scoped teardown. -/
theorem exit_closes_held_handle (url : String)
    (headers : Option (List (String × String))) (injected : Option Nat)
    (fresh h : Nat) (exc_info : Option String) :
    exit_closes (init url headers injected fresh) exc_info
        = (init url headers injected fresh).http_client
      ∧ (init url headers (some h) fresh).http_client = h
      ∧ (init url headers none fresh).http_client = fresh :=
  ⟨rfl, rfl, rfl⟩

/-- C2: variable normalization omits every top-level key bound to the
`UNSET` sentinel from the serialized variables mapping, while a key
explicitly bound to null is kept, bound to null. -/
theorem convert_dict_drops_unset_keeps_null
    (d : List (String × Value)) (k : String)
    (hnd : (d.map Prod.fst).Nodup) :
    ((k, Value.vUNSET) ∈ d →
      k ∉ (_convert_dict_to_json_serializable d).map Prod.fst)
    ∧ ((k, Value.vNull) ∈ d →
      (k, Value.vNull) ∈ _convert_dict_to_json_serializable d) := by
  constructor
  · intro hmem hk
    rcases List.mem_map.mp hk with ⟨kv, hkv, hfst⟩
    rcases List.mem_map.mp hkv with ⟨kv₀, hkv₀, hconv⟩
    rcases List.mem_filter.mp hkv₀ with ⟨hkv₀mem, hkv₀keep⟩
    obtain ⟨k₀, v₀⟩ := kv₀
    have hkey : k₀ = k := by
      have h2 : kv.1 = k₀ := by rw [← hconv]
      rw [h2] at hfst
      exact hfst
    subst hkey
    have hv : v₀ = Value.vUNSET :=
      value_eq_of_mem_of_keys_nodup hnd hkv₀mem hmem
    rw [hv] at hkv₀keep
    simp [is_unset] at hkv₀keep
  · intro hmem
    apply List.mem_map.mpr
    refine ⟨(k, Value.vNull), List.mem_filter.mpr ⟨hmem, by simp [is_unset]⟩, rfl⟩

/-- C2 witness: on `{a: UNSET, b: null}` the serialized mapping has no
key `a` and keeps `b` bound to null. -/
theorem convert_dict_drops_unset_keeps_null_witness :
    ([("a", Value.vUNSET), ("b", Value.vNull)].map Prod.fst).Nodup
    ∧ "a" ∉ (_convert_dict_to_json_serializable
        [("a", Value.vUNSET), ("b", Value.vNull)]).map Prod.fst
    ∧ ("b", Value.vNull) ∈ _convert_dict_to_json_serializable
        [("a", Value.vUNSET), ("b", Value.vNull)] := by
  refine ⟨by decide, ?_, ?_⟩
  · exact (convert_dict_drops_unset_keeps_null
      [("a", Value.vUNSET), ("b", Value.vNull)] "a" (by decide)).1
      (by simp)
  · exact (convert_dict_drops_unset_keeps_null
      [("a", Value.vUNSET), ("b", Value.vNull)] "b" (by decide)).2
      (by simp)

/-- C4: on a response whose transport status is not success, `get_data`
fails with `HttpError` carrying the status code and the raw response,
whatever the body holds — in particular the body is never inspected (the
same `HttpError` results for every body, parseable or not). -/
theorem get_data_http_error (r : Response) (h : r.is_success = false) :
    get_data r = .httpError r.status_code r
    ∧ ∀ body : Option Value,
        get_data ⟨r.status_code, body⟩
          = .httpError r.status_code ⟨r.status_code, body⟩ := by
  constructor
  · simp [get_data, h]
  · intro body
    have hb : (Response.mk r.status_code body).is_success = false := h
    simp [get_data, hb]

/-- C4 witness: HTTP 500 with an unparseable body yields `HttpError 500`
without any JSON parsing. -/
theorem get_data_http_error_witness :
    (Response.mk 500 none).is_success = false
    ∧ get_data ⟨500, none⟩ = .httpError 500 ⟨500, none⟩ := by
  refine ⟨rfl, (get_data_http_error ⟨500, none⟩ rfl).1⟩

/-- C3: on a successful response whose body parses to an object with a
`data` key and a non-empty `errors` array, `get_data` fails with
`GraphQLMultiError` built from that array — each entry becoming a
`GraphQLError` — and carrying the (possibly partial) `data` value. -/
theorem get_data_graphql_multi_error (r : Response)
    (kvs : List (String × Value)) (data : Value) (es : List Value)
    (hsucc : r.is_success = true) (hbody : r.body = some (.vDict kvs))
    (hdata : kvs.lookup "data" = some data)
    (herrors : kvs.lookup "errors" = some (.vList es)) (hne : es ≠ []) :
    get_data r = .graphQLMultiError (from_errors_dicts es) data := by
  cases es with
  | nil => exact absurd rfl hne
  | cons e es' =>
      simp [get_data, hsucc, hbody, hdata, herrors, truthy, errors_entries]

/-- C3 witness: the body
`{"data": {"x": 1}, "errors": [{"message": "boom"}]}` produces a
`GraphQLMultiError` whose data equals `{"x": 1}` and whose errors list
has exactly one entry, with message `"boom"`. -/
theorem get_data_graphql_multi_error_witness :
    (Response.mk 200 (some (.vDict
        [("data", .vDict [("x", .vInt 1)]),
         ("errors", .vList [.vDict [("message", .vStr "boom")]])]))).is_success
      = true
    ∧ get_data ⟨200, some (.vDict
        [("data", .vDict [("x", .vInt 1)]),
         ("errors", .vList [.vDict [("message", .vStr "boom")]])])⟩
        = .graphQLMultiError
            (from_errors_dicts [.vDict [("message", .vStr "boom")]])
            (.vDict [("x", .vInt 1)])
    ∧ from_errors_dicts [.vDict [("message", .vStr "boom")]]
        = [{ message := "boom", path := none, locations := none }] := by
  refine ⟨rfl, ?_, rfl⟩
  exact get_data_graphql_multi_error
    ⟨200, some (.vDict
        [("data", .vDict [("x", .vInt 1)]),
         ("errors", .vList [.vDict [("message", .vStr "boom")]])])⟩
    [("data", .vDict [("x", .vInt 1)]),
     ("errors", .vList [.vDict [("message", .vStr "boom")]])]
    (.vDict [("x", .vInt 1)]) [.vDict [("message", .vStr "boom")]]
    rfl rfl rfl rfl (by simp)

/-- C5: a variables structure binding one file handle at two different
argument paths yields a file-reference-map with a single entry for that
handle listing both dotted paths; the multipart `map` field lists both
paths under the single string index `"0"`; and in general the multipart
`map` assigns distinct file handles the string indices `"0"`, `"1"`, …
in encounter order. -/
theorem file_bound_twice_single_map_entry (k₁ k₂ : String) (fid : Nat)
    (m : String) (hk : k₁ ≠ k₂) (hm : m.data.contains 'b' = true) :
    _get_files_from_variables
        [(k₁, .vFile fid (some m)), (k₂, .vFile fid (some m))]
      = ([(k₁, .vNull), (k₂, .vNull)],
         [(fid, ["variables" ++ "." ++ k₁, "variables" ++ "." ++ k₂])])
    ∧ files_map [(fid, ["variables" ++ "." ++ k₁, "variables" ++ "." ++ k₂])]
      = [("0", ["variables" ++ "." ++ k₁, "variables" ++ "." ++ k₂])]
    ∧ ∀ fm : FilesToPathsMap,
        (files_map fm).map Prod.fst
          = (List.range fm.length).map (fun idx => toString idx) := by
  have hm' : 'b' ∈ m.data := by simpa using hm
  refine ⟨?_, by rw [files_map]; simp [List.enum]; rfl, ?_⟩
  · simp [_get_files_from_variables, separate_files, separate_files_dict,
          is_binary_file_mode, hm', record_file]
  · intro fm
    rw [files_map, List.map_map]
    have : ((fun p : String × List String => p.1) ∘
        fun p : Nat × (Nat × List String) => (toString p.1, p.2.2))
        = (fun s => toString s) ∘ (fun p : Nat × (Nat × List String) => p.1) :=
      rfl
    rw [this, ← List.map_map, List.enum_map_fst]

/-- C5 witness: the file handle `0` bound at both `a` and `b`. -/
theorem file_bound_twice_single_map_entry_witness :
    ("a" : String) ≠ "b" ∧ "rb".data.contains 'b' = true
    ∧ _get_files_from_variables
        [("a", .vFile 0 (some "rb")), ("b", .vFile 0 (some "rb"))]
      = ([("a", .vNull), ("b", .vNull)],
         [(0, ["variables" ++ "." ++ "a", "variables" ++ "." ++ "b"])]) := by
  refine ⟨by decide, by decide, ?_⟩
  exact (file_bound_twice_single_map_entry "a" "b" 0 "rb" (by decide)
    (by decide)).1

/-- C10: a file handle with no `mode` attribute at all defaults to binary
and is extracted — recorded in the file-reference map and replaced by
null — while a handle whose mode contains no `"b"` is returned
unchanged, stays out of the map, and an `execute` call whose variables
hold only such a text-mode handle issues the plain JSON request. -/
theorem file_without_mode_binary_text_mode_kept (fid : Nat) (m p : String)
    (fm : FilesToPathsMap) (q k : String)
    (hm : m.data.contains 'b' = false) :
    separate_files p (.vFile fid none) fm = (.vNull, record_file fid p fm)
    ∧ separate_files p (.vFile fid (some m)) fm = (.vFile fid (some m), fm)
    ∧ execute q (some [(k, .vFile fid (some m))])
        = .jsonRequest ⟨q, [(k, .vFile fid (some m))]⟩
            [("Content-Type", "application/json")] := by
  have hm' : 'b' ∉ m.data := by simpa using hm
  refine ⟨rfl, ?_, ?_⟩
  · simp [separate_files, is_binary_file_mode, hm']
  · simp [execute, _process_variables, _convert_dict_to_json_serializable,
          is_unset, _convert_value, _get_files_from_variables,
          separate_files, separate_files_dict, is_binary_file_mode, hm',
          _execute_json]

/-- C10 witness: handle `3` with no mode attribute is extracted at path
`variables.f`; handle `3` opened with mode `"r"` is left in place and the
call goes out as plain JSON. -/
theorem file_without_mode_binary_text_mode_kept_witness :
    "r".data.contains 'b' = false
    ∧ (separate_files "variables.f" (.vFile 3 none) []
          = (.vNull, record_file 3 "variables.f" [])
        ∧ separate_files "variables.f" (.vFile 3 (some "r")) []
          = (.vFile 3 (some "r"), [])
        ∧ execute "q" (some [("f", .vFile 3 (some "r"))])
          = .jsonRequest ⟨"q", [("f", .vFile 3 (some "r"))]⟩
              [("Content-Type", "application/json")]) :=
  ⟨by decide,
   file_without_mode_binary_text_mode_kept 3 "r" "variables.f" [] "q" "f"
     (by decide)⟩

mutual

/-- A runtime value contains no file-like value anywhere. -/
def no_files : Value → Bool
  | .vList xs => no_files_list xs
  | .vDict kvs => no_files_dict kvs
  | .vModel fields => no_files_dict fields
  | .vFile _ _ => false
  | _ => true

/-- Predicate `no_files` over the elements of a list value. -/
def no_files_list : List Value → Bool
  | [] => true
  | v :: vs => no_files v && no_files_list vs

/-- Predicate `no_files` over the values of a dict or model. -/
def no_files_dict : List (String × Value) → Bool
  | [] => true
  | (_, v) :: rest => no_files v && no_files_dict rest

end

mutual

/-- pydantic serialization introduces no file-like values (dict form). -/
theorem no_files_pydantic_dict (kvs : List (String × Value))
    (h : no_files_dict kvs = true) :
    no_files_dict (pydantic_dict kvs) = true := by
  match kvs with
  | [] => simpa [pydantic_dict] using h
  | (k, v) :: rest =>
      rw [no_files_dict, Bool.and_eq_true] at h
      rw [pydantic_dict]
      split
      · exact no_files_pydantic_dict rest h.2
      · rw [no_files_dict, Bool.and_eq_true]
        exact ⟨no_files_pydantic_plain v h.1, no_files_pydantic_dict rest h.2⟩

/-- pydantic serialization introduces no file-like values (value form). -/
theorem no_files_pydantic_plain (v : Value) (h : no_files v = true) :
    no_files (pydantic_plain v) = true := by
  match v with
  | .vModel fields =>
      rw [no_files] at h
      rw [pydantic_plain, no_files]
      exact no_files_pydantic_dict fields h
  | .vDict kvs =>
      rw [no_files] at h
      rw [pydantic_plain, no_files]
      exact no_files_pydantic_dict kvs h
  | .vList xs =>
      rw [no_files] at h
      rw [pydantic_plain, no_files]
      exact no_files_pydantic_plain_list xs h
  | .vNull | .vBool _ | .vInt _ | .vStr _ | .vUNSET => exact h
  | .vFile _ _ => simp [no_files] at h

/-- pydantic serialization introduces no file-like values (list form). -/
theorem no_files_pydantic_plain_list (xs : List Value)
    (h : no_files_list xs = true) :
    no_files_list (pydantic_plain_list xs) = true := by
  match xs with
  | [] => simpa [pydantic_plain_list] using h
  | v :: vs =>
      rw [no_files_list, Bool.and_eq_true] at h
      rw [pydantic_plain_list, no_files_list, Bool.and_eq_true]
      exact ⟨no_files_pydantic_plain v h.1, no_files_pydantic_plain_list vs h.2⟩

end

mutual

/-- Helper: `_convert_value` introduces no file-like values. -/
theorem no_files_convert_value (v : Value) (h : no_files v = true) :
    no_files (_convert_value v) = true := by
  match v with
  | .vModel fields =>
      rw [no_files] at h
      rw [_convert_value, no_files]
      exact no_files_pydantic_dict fields h
  | .vList xs =>
      rw [no_files] at h
      rw [_convert_value, no_files]
      exact no_files_convert_value_list xs h
  | .vNull | .vBool _ | .vInt _ | .vStr _ | .vUNSET | .vDict _ => exact h
  | .vFile _ _ => simp [no_files] at h

/-- Helper: `_convert_value_list` introduces no file-like values. -/
theorem no_files_convert_value_list (xs : List Value)
    (h : no_files_list xs = true) :
    no_files_list (_convert_value_list xs) = true := by
  match xs with
  | [] => simpa [_convert_value_list] using h
  | v :: vs =>
      rw [no_files_list, Bool.and_eq_true] at h
      rw [_convert_value_list, no_files_list, Bool.and_eq_true]
      exact ⟨no_files_convert_value v h.1, no_files_convert_value_list vs h.2⟩

end

/-- Helper: `_convert_dict_to_json_serializable` introduces no file-like values. -/
theorem no_files_convert_dict (d : List (String × Value))
    (h : no_files_dict d = true) :
    no_files_dict (_convert_dict_to_json_serializable d) = true := by
  induction d with
  | nil => simpa [_convert_dict_to_json_serializable] using h
  | cons kv rest ih =>
      obtain ⟨k, v⟩ := kv
      rw [no_files_dict, Bool.and_eq_true] at h
      rw [_convert_dict_to_json_serializable, List.filter_cons]
      split
      · rw [List.map_cons, no_files_dict, Bool.and_eq_true]
        exact ⟨no_files_convert_value v h.1,
          ih h.2⟩
      · exact ih h.2

mutual

/-- The `separate_files` walk over a value without file-like values
returns the value unchanged and leaves the file-reference map untouched. -/
theorem separate_files_no_files (p : String) (v : Value)
    (fm : FilesToPathsMap) (h : no_files v = true) :
    separate_files p v fm = (v, fm) := by
  match v with
  | .vList xs =>
      rw [no_files] at h
      rw [separate_files, separate_files_list_no_files p 0 xs fm h]
  | .vDict kvs =>
      rw [no_files] at h
      rw [separate_files, separate_files_dict_no_files p kvs fm h]
  | .vModel _ | .vNull | .vBool _ | .vInt _ | .vStr _ | .vUNSET =>
      simp [separate_files]
  | .vFile _ _ => simp [no_files] at h

/-- List case of `separate_files_no_files`. -/
theorem separate_files_list_no_files (p : String) (i : Nat)
    (xs : List Value) (fm : FilesToPathsMap)
    (h : no_files_list xs = true) :
    separate_files_list p i xs fm = (xs, fm) := by
  match xs with
  | [] => rw [separate_files_list]
  | v :: vs =>
      rw [no_files_list, Bool.and_eq_true] at h
      rw [separate_files_list,
          separate_files_no_files (p ++ "." ++ toString i) v fm h.1,
          separate_files_list_no_files p (i + 1) vs fm h.2]

/-- Dict case of `separate_files_no_files`. -/
theorem separate_files_dict_no_files (p : String)
    (kvs : List (String × Value)) (fm : FilesToPathsMap)
    (h : no_files_dict kvs = true) :
    separate_files_dict p kvs fm = (kvs, fm) := by
  match kvs with
  | [] => rw [separate_files_dict]
  | (k, v) :: rest =>
      rw [no_files_dict, Bool.and_eq_true] at h
      rw [separate_files_dict,
          separate_files_no_files (p ++ "." ++ k) v fm h.1,
          separate_files_dict_no_files p rest fm h.2]

end

/-- C6: a variables structure containing no file-like value normalizes to
an empty file-reference map, and `execute` issues the plain JSON request
— never the multipart one. -/
theorem no_files_means_json_request (q : String)
    (d : List (String × Value)) (h : no_files_dict d = true) :
    (_process_variables (some d)).2 = []
    ∧ execute q (some d)
        = .jsonRequest ⟨q, (_process_variables (some d)).1⟩
            [("Content-Type", "application/json")] := by
  have hproc : (_process_variables (some d)).2 = [] := by
    rw [_process_variables]
    split
    · rfl
    · rw [_get_files_from_variables]
      have hconv := no_files_convert_dict d h
      rw [separate_files_no_files "variables"
            (.vDict (_convert_dict_to_json_serializable d)) []
            (by rw [no_files]; exact hconv)]
  refine ⟨hproc, ?_⟩
  rw [execute]
  simp only [hproc]
  rfl

/-- C6 witness: `{a: "hi"}` holds no file-like value, produces an empty
file-reference map and a plain JSON request. -/
theorem no_files_means_json_request_witness :
    no_files_dict [("a", Value.vStr "hi")] = true
    ∧ ((_process_variables (some [("a", Value.vStr "hi")])).2 = []
        ∧ execute "q" (some [("a", Value.vStr "hi")])
          = .jsonRequest
              ⟨"q", (_process_variables (some [("a", Value.vStr "hi")])).1⟩
              [("Content-Type", "application/json")]) :=
  ⟨rfl, no_files_means_json_request "q" [("a", Value.vStr "hi")] rfl⟩

end BaseClient

/-! ## Theorems about the client generator -/

namespace ClientGenerator

/-- Helper: `_add_import` never touches the class definition. -/
theorem _add_import_class_def (g : State) (imp : Option PyImportFrom) :
    (_add_import g imp).class_def = g.class_def := by
  cases imp with
  | none => rfl
  | some v =>
      rw [_add_import]
      cases g.plugin_manager <;> dsimp only [] <;> split <;> rfl

/-- Helper: `_add_import` never touches the plugin manager. -/
theorem _add_import_plugin_manager (g : State) (imp : Option PyImportFrom) :
    (_add_import g imp).plugin_manager = g.plugin_manager := by
  cases imp with
  | none => rfl
  | some v =>
      rw [_add_import]
      cases hpm : g.plugin_manager <;> dsimp only [] <;> split <;>
        simp [hpm]

/-- Helper: `_add_import` never touches the enums module name. -/
theorem _add_import_enums_module_name (g : State)
    (imp : Option PyImportFrom) :
    (_add_import g imp).enums_module_name = g.enums_module_name := by
  cases imp with
  | none => rfl
  | some v =>
      rw [_add_import]
      cases hpm : g.plugin_manager <;> dsimp only [] <;> split <;> rfl

/-- Helper: `_add_import` never touches the input-types module name. -/
theorem _add_import_input_types_module_name (g : State)
    (imp : Option PyImportFrom) :
    (_add_import g imp).input_types_module_name
      = g.input_types_module_name := by
  cases imp with
  | none => rfl
  | some v =>
      rw [_add_import]
      cases hpm : g.plugin_manager <;> dsimp only [] <;> split <;> rfl

/-- Helper: `_add_import` never touches the recorded input-type usages. -/
theorem _add_import_used_inputs (g : State) (imp : Option PyImportFrom) :
    (_add_import g imp).used_inputs = g.used_inputs := by
  cases imp with
  | none => rfl
  | some v =>
      rw [_add_import]
      cases hpm : g.plugin_manager <;> dsimp only [] <;> split <;> rfl

/-- Helper: `_add_import` never touches the recorded enum usages. -/
theorem _add_import_used_enums (g : State) (imp : Option PyImportFrom) :
    (_add_import g imp).used_enums = g.used_enums := by
  cases imp with
  | none => rfl
  | some v =>
      rw [_add_import]
      cases hpm : g.plugin_manager <;> dsimp only [] <;> split <;> rfl

/-- Helper: `_add_import` never touches the recorded custom-scalar usages. -/
theorem _add_import_used_custom_scalars (g : State)
    (imp : Option PyImportFrom) :
    (_add_import g imp).used_custom_scalars = g.used_custom_scalars := by
  cases imp with
  | none => rfl
  | some v =>
      rw [_add_import]
      cases hpm : g.plugin_manager <;> dsimp only [] <;> split <;> rfl

/-- Helper: `add_method` appends exactly the built method to the class body. -/
theorem add_method_class_def_body (g : State) (i : MethodInput) :
    (add_method g i).class_def.body
      = g.class_def.body ++ [.methodItem (make_method_def g i)] := by
  rw [add_method, _add_import_class_def]

/-- Helper: `add_method` never touches the plugin manager. -/
theorem add_method_plugin_manager (g : State) (i : MethodInput) :
    (add_method g i).plugin_manager = g.plugin_manager := by
  rw [add_method, _add_import_plugin_manager]

/-- C7: with no plugin manager registered, one `add_method` call appends
exactly one method to the class body; that method has `self` followed by
exactly one parameter per variable definition, is async exactly when
requested, and its body is the fixed five-statement skeleton in order —
assign the query, assign the annotated variables mapping, assign the
response from `self.execute` (awaited iff async), assign the data from
`self.get_data`, and return the parsed result object. -/
theorem add_method_shape (g : State) (i : MethodInput)
    (h : g.plugin_manager = none) :
    ∃ (m : PyFunctionDef) (params : List PyArg) (qv dv : PyExpr),
      (add_method g i).class_def.body
        = g.class_def.body ++ [.methodItem m]
      ∧ m.args = ⟨"self", none⟩ :: params
      ∧ params.length = i.variable_definitions.length
      ∧ m.is_async = i.async_
      ∧ m.body =
          [ .assign ["query"] qv 1
          , .annAssign "variables"
              (.subscript (.name "dict")
                (.tupleExpr [.name "str", .name "object"])) dv 2
          , .assign ["response"]
              (if i.async_ then .awaitExpr _generate_execute_call
               else _generate_execute_call) 3
          , _generate_data_retrieval
          , _generate_return_parsed_obj i.return_type ] := by
  refine ⟨make_method_def g i,
    i.variable_definitions.map
      (fun vd => ⟨vd.varName, some (ArgumentsGenerator.annotation_of vd)⟩),
    .call (.name "gql")
      [.listExpr ((i.operation_str.splitOn "\n").map
        (fun l => .constant (l ++ "\n")))] [],
    .dictExpr (i.variable_definitions.map
      (fun vd => (.constant vd.varName, ArgumentsGenerator.dict_value_of vd))),
    add_method_class_def_body g i, ?_, ?_, ?_, ?_⟩
  all_goals
    cases hb : i.async_ <;>
      simp [make_method_def, h, hb, _generate_async_method, _generate_method,
        ArgumentsGenerator.generate, _generate_operation_str_assign,
        _generate_variables_assign, _generate_async_response_assign,
        _generate_response_assign]

/-- C7 witness: a fresh generator with no plugin manager and an operation
with two variable definitions. -/
theorem add_method_shape_witness :
    (init "Client" "AsyncBaseClient" "enums" "input_types" none none []
        none).plugin_manager = none
    ∧ ∃ (m : PyFunctionDef) (params : List PyArg) (qv dv : PyExpr),
      PyClassDef.body
          (State.class_def
            (add_method
              (init "Client" "AsyncBaseClient" "enums" "input_types" none none
                [] none)
              ⟨[⟨"id", "str", false, false, .builtin, false⟩,
                ⟨"data", "MyInput", false, true, .inputType, false⟩],
               "get_thing", "GetThing", "get_thing", "query GetThing ...",
               true⟩))
        = (init "Client" "AsyncBaseClient" "enums" "input_types" none none []
            none).class_def.body ++ [.methodItem m]
      ∧ m.args = ⟨"self", none⟩ :: params
      ∧ params.length
          = ([⟨"id", "str", false, false, .builtin, false⟩,
              ⟨"data", "MyInput", false, true, .inputType, false⟩] :
              List VariableDefinition).length
      ∧ m.is_async = true
      ∧ m.body =
          [ .assign ["query"] qv 1
          , .annAssign "variables"
              (.subscript (.name "dict")
                (.tupleExpr [.name "str", .name "object"])) dv 2
          , .assign ["response"]
              (if true then .awaitExpr _generate_execute_call
               else _generate_execute_call) 3
          , _generate_data_retrieval
          , _generate_return_parsed_obj "GetThing" ] :=
  ⟨rfl,
   add_method_shape
     (init "Client" "AsyncBaseClient" "enums" "input_types" none none [] none)
     ⟨[⟨"id", "str", false, false, .builtin, false⟩,
       ⟨"data", "MyInput", false, true, .inputType, false⟩],
      "get_thing", "GetThing", "get_thing", "query GetThing ...", true⟩
     rfl⟩

/-- The methods the calls of `add_method` produce, in call order: each
call's method is built against the state left by the previous calls. -/
def methods_in_call_order (g : State) : List MethodInput → List PyFunctionDef
  | [] => []
  | i :: is_ => make_method_def g i :: methods_in_call_order (add_method g i) is_

/-- C8: any sequence of `add_method` calls appends its methods to the
class body in exactly call order — one method per call, later calls never
reordering or removing earlier methods — whatever plugin hooks are
registered. -/
theorem add_methods_in_call_order (g : State) (ins : List MethodInput) :
    (add_methods g ins).class_def.body
      = g.class_def.body
        ++ (methods_in_call_order g ins).map PyClassBodyItem.methodItem
    ∧ (methods_in_call_order g ins).length = ins.length := by
  induction ins generalizing g with
  | nil => simp [add_methods, methods_in_call_order]
  | cons i is_ ih =>
      obtain ⟨h1, h2⟩ := ih (add_method g i)
      rw [add_methods, methods_in_call_order]
      refine ⟨?_, by simpa using h2⟩
      rw [h1, add_method_class_def_body]
      simp

/-- Forgetting the plugin manager of a generator state, leaving every
other field unchanged — the no-plugin twin of a state. -/
def erase_pm (g : State) : State := { g with plugin_manager := none }

/-- The no-plugin twin keeps the enums module name. -/
theorem erase_pm_enums_module_name (g : State) :
    (erase_pm g).enums_module_name = g.enums_module_name := rfl

/-- The no-plugin twin keeps the input-types module name. -/
theorem erase_pm_input_types_module_name (g : State) :
    (erase_pm g).input_types_module_name = g.input_types_module_name := rfl

/-- The no-plugin twin keeps the recorded input-type usages. -/
theorem erase_pm_used_inputs (g : State) :
    (erase_pm g).used_inputs = g.used_inputs := rfl

/-- The no-plugin twin keeps the recorded enum usages. -/
theorem erase_pm_used_enums (g : State) :
    (erase_pm g).used_enums = g.used_enums := rfl

/-- The no-plugin twin keeps the recorded custom-scalar usages. -/
theorem erase_pm_used_custom_scalars (g : State) :
    (erase_pm g).used_custom_scalars = g.used_custom_scalars := rfl

/-- With identity hooks, `_add_import` acts identically on a state and on
its no-plugin twin. -/
theorem erase_pm_add_import (g : State) (imp : Option PyImportFrom)
    (h : g.plugin_manager = some identityPluginManager) :
    erase_pm (_add_import g imp) = _add_import (erase_pm g) imp := by
  cases imp with
  | none => rfl
  | some v =>
      rw [_add_import, _add_import]
      simp only [erase_pm, h, identityPluginManager]
      split <;> rfl

/-- Folding `_add_import` over a list of imports preserves the plugin
manager. -/
theorem foldl_add_import_plugin_manager (imps : List PyImportFrom)
    (g : State) :
    State.plugin_manager
        (imps.foldl (fun a import_ => _add_import a (some import_)) g)
      = g.plugin_manager := by
  induction imps generalizing g with
  | nil => rfl
  | cons imp rest ih =>
      rw [List.foldl_cons, ih, _add_import_plugin_manager]

/-- With identity hooks, folding `_add_import` over a list of imports
acts identically on a state and on its no-plugin twin. -/
theorem erase_pm_foldl_add_import (imps : List PyImportFrom) (g : State)
    (h : g.plugin_manager = some identityPluginManager) :
    erase_pm (imps.foldl (fun a import_ => _add_import a (some import_)) g)
      = imps.foldl (fun a import_ => _add_import a (some import_))
          (erase_pm g) := by
  induction imps generalizing g with
  | nil => rfl
  | cons imp rest ih =>
      rw [List.foldl_cons, List.foldl_cons,
          ← erase_pm_add_import g (some imp) h]
      exact ih (_add_import g (some imp))
        (by rw [_add_import_plugin_manager]; exact h)

/-- Helper: `_add_scalar_import_batch` preserves the plugin manager. -/
theorem _add_scalar_import_batch_plugin_manager (g : State) (n : String) :
    (_add_scalar_import_batch g n).plugin_manager = g.plugin_manager := by
  rw [_add_scalar_import_batch]
  cases hl : g.custom_scalars.lookup n with
  | none => rfl
  | some sd => exact foldl_add_import_plugin_manager sd.imports_ g

/-- With identity hooks, `_add_scalar_import_batch` acts identically on a
state and on its no-plugin twin. -/
theorem erase_pm_add_scalar_import_batch (g : State) (n : String)
    (h : g.plugin_manager = some identityPluginManager) :
    erase_pm (_add_scalar_import_batch g n)
      = _add_scalar_import_batch (erase_pm g) n := by
  rw [_add_scalar_import_batch, _add_scalar_import_batch]
  have hcs : (erase_pm g).custom_scalars = g.custom_scalars := rfl
  rw [hcs]
  cases hl : g.custom_scalars.lookup n with
  | none => rfl
  | some sd => exact erase_pm_foldl_add_import sd.imports_ g h

/-- Folding `_add_scalar_import_batch` over scalar names preserves the
plugin manager. -/
theorem foldl_scalar_batch_plugin_manager (names : List String)
    (g : State) :
    (names.foldl _add_scalar_import_batch g).plugin_manager
      = g.plugin_manager := by
  induction names generalizing g with
  | nil => rfl
  | cons n rest ih =>
      rw [List.foldl_cons, ih, _add_scalar_import_batch_plugin_manager]

/-- With identity hooks, the custom-scalar import loop acts identically
on a state and on its no-plugin twin. -/
theorem erase_pm_foldl_scalar_batch (names : List String) (g : State)
    (h : g.plugin_manager = some identityPluginManager) :
    erase_pm (names.foldl _add_scalar_import_batch g)
      = names.foldl _add_scalar_import_batch (erase_pm g) := by
  induction names generalizing g with
  | nil => rfl
  | cons n rest ih =>
      rw [List.foldl_cons, List.foldl_cons,
          ← erase_pm_add_scalar_import_batch g n h]
      exact ih (_add_scalar_import_batch g n)
        (by rw [_add_scalar_import_batch_plugin_manager]; exact h)

/-- The import-accumulation phase of `generate` preserves the plugin
manager. -/
theorem _generate_imports_phase_plugin_manager (g : State) :
    (_generate_imports_phase g).plugin_manager = g.plugin_manager := by
  rw [_generate_imports_phase]
  rw [foldl_scalar_batch_plugin_manager, _add_import_plugin_manager,
      _add_import_plugin_manager]

/-- With identity hooks, the import-accumulation phase of `generate` acts
identically on a state and on its no-plugin twin. -/
theorem erase_pm_generate_imports_phase (g : State)
    (h : g.plugin_manager = some identityPluginManager) :
    erase_pm (_generate_imports_phase g)
      = _generate_imports_phase (erase_pm g) := by
  rw [_generate_imports_phase, _generate_imports_phase]
  simp only [_add_import_enums_module_name,
    _add_import_input_types_module_name, _add_import_used_inputs,
    _add_import_used_enums, _add_import_used_custom_scalars,
    erase_pm_enums_module_name, erase_pm_input_types_module_name,
    erase_pm_used_inputs, erase_pm_used_enums, erase_pm_used_custom_scalars]
  rw [erase_pm_foldl_scalar_batch _ _
        (by rw [_add_import_plugin_manager, _add_import_plugin_manager]
            exact h),
      erase_pm_add_import _ _ (by rw [_add_import_plugin_manager]; exact h),
      erase_pm_add_import _ _ h]

/-- With identity hooks, `generate` produces the same module as on the
no-plugin twin of the state. -/
theorem generate_erase_pm (g : State)
    (h : g.plugin_manager = some identityPluginManager) :
    generate g = generate (erase_pm g) := by
  rw [generate, generate, ← erase_pm_generate_imports_phase g h]
  have hs : (_generate_imports_phase g).plugin_manager
      = some identityPluginManager := by
    rw [_generate_imports_phase_plugin_manager]; exact h
  simp only [erase_pm, hs, identityPluginManager]

/-- Helper: `make_method_def` builds the same method on a state with identity
hooks as on its no-plugin twin. -/
theorem make_method_def_erase_pm (g : State) (i : MethodInput)
    (h : g.plugin_manager = some identityPluginManager) :
    make_method_def g i = make_method_def (erase_pm g) i := by
  rw [make_method_def, make_method_def]
  simp only [erase_pm, h, identityPluginManager]

/-- With identity hooks, `add_method` acts identically on a state and on
its no-plugin twin. -/
theorem erase_pm_add_method (g : State) (i : MethodInput)
    (h : g.plugin_manager = some identityPluginManager) :
    erase_pm (add_method g i) = add_method (erase_pm g) i := by
  obtain ⟨n, e, itm, pm, cs, ui, ue, us, imps, cd⟩ := g
  simp only [State.plugin_manager] at h
  subst h
  rw [add_method, add_method]
  rw [erase_pm_add_import _ _ rfl]
  rfl

/-- Helper: `add_methods` preserves the plugin manager. -/
theorem add_methods_plugin_manager (g : State) (ins : List MethodInput) :
    (add_methods g ins).plugin_manager = g.plugin_manager := by
  induction ins generalizing g with
  | nil => rfl
  | cons i rest ih =>
      rw [add_methods, ih, add_method_plugin_manager]

/-- With identity hooks, a sequence of `add_method` calls acts
identically on a state and on its no-plugin twin. -/
theorem erase_pm_add_methods (g : State) (ins : List MethodInput)
    (h : g.plugin_manager = some identityPluginManager) :
    erase_pm (add_methods g ins) = add_methods (erase_pm g) ins := by
  induction ins generalizing g with
  | nil => rfl
  | cons i rest ih =>
      rw [add_methods, add_methods, ← erase_pm_add_method g i h]
      exact ih (add_method g i)
        (by rw [add_method_plugin_manager]; exact h)

/-- Helper: `init` stores the given plugin manager. -/
theorem init_plugin_manager (name base_client enums inputs : String)
    (bci ui : Option PyImportFrom) (cs : List (String × ScalarData))
    (pm : Option PluginManager) :
    (init name base_client enums inputs bci ui cs pm).plugin_manager
      = pm := by
  rw [init]
  rw [_add_import_plugin_manager, _add_import_plugin_manager,
      _add_import_plugin_manager]

/-- With identity hooks, `init` produces the no-plugin twin of the
no-plugin `init`. -/
theorem erase_pm_init (name base_client enums inputs : String)
    (bci ui : Option PyImportFrom) (cs : List (String × ScalarData)) :
    erase_pm (init name base_client enums inputs bci ui cs
        (some identityPluginManager))
      = init name base_client enums inputs bci ui cs none := by
  rw [init, init]
  rw [erase_pm_add_import _ ui
        (by rw [_add_import_plugin_manager, _add_import_plugin_manager]),
      erase_pm_add_import _ bci (by rw [_add_import_plugin_manager]),
      erase_pm_add_import _ _ rfl]
  rfl

/-- C9: a generation run with a registered plugin-hook collection in
which every hook is the identity produces a module identical to the same
run — same constructor configuration, same sequence of `add_method`
calls — with no plugin-hook collection registered. -/
theorem identity_hooks_leave_module_unchanged
    (name base_client enums inputs : String)
    (bci ui : Option PyImportFrom) (cs : List (String × ScalarData))
    (ins : List MethodInput) :
    generate (add_methods
        (init name base_client enums inputs bci ui cs
          (some identityPluginManager)) ins)
      = generate (add_methods
          (init name base_client enums inputs bci ui cs none) ins) := by
  have hpm0 : (init name base_client enums inputs bci ui cs
      (some identityPluginManager)).plugin_manager
      = some identityPluginManager :=
    init_plugin_manager name base_client enums inputs bci ui cs _
  have hrun : add_methods
      (init name base_client enums inputs bci ui cs none) ins
      = erase_pm (add_methods
          (init name base_client enums inputs bci ui cs
            (some identityPluginManager)) ins) := by
    rw [erase_pm_add_methods _ ins hpm0,
        erase_pm_init name base_client enums inputs bci ui cs]
  rw [hrun]
  exact generate_erase_pm _
    (by rw [add_methods_plugin_manager]; exact hpm0)

end ClientGenerator

end AriadneCodegen
